import Mathlib

/-!
Shallow embedding of the order-execution and risk-management core of the
trading system (backend/src/risk/risk_manager.py and
backend/src/execution/execution_engine.py), together with theorems about
position sizing, stop levels, the order registries and the monitoring loop.

Python floats are embedded as exact rationals; Python dicts keyed by
strings are embedded as association lists with first-match lookup;
raising an exception is embedded as returning `Except.error`.
-/

namespace TradingSystem

/-- Market regime classification (ml_models.py, class MarketRegime).
Trend and volatility are the strings produced by MarketRegimeAnalyzer
(BULLISH / BEARISH / NEUTRAL and HIGH / NORMAL / LOW). -/
structure MarketRegime where
  trend : String
  volatility : String
  strength : ℚ
  confidence : ℚ
deriving DecidableEq

/-- Recognized risk-parameter configuration with the default values merged
in RiskManager.__init__ (risk_manager.py lines 39-48). -/
structure RiskParams where
  max_position_size : ℚ
  max_portfolio_risk : ℚ
  max_correlation_risk : ℚ
  max_sector_exposure : ℚ
  max_daily_drawdown : ℚ
  position_scaling_factor : ℚ
  stop_loss_atr_factor : ℚ
deriving DecidableEq

/-- Default risk parameters from RiskManager.__init__. -/
def defaultRiskParams : RiskParams :=
  ⟨0.02, 0.05, 0.3, 0.2, 0.03, 0.5, 2.0⟩

/-- PositionSize dataclass (risk_manager.py lines 9-15). -/
structure PositionSize where
  units : ℚ
  value : ℚ
  risk_amount : ℚ
  risk_percent : ℚ
  position_type : String
deriving DecidableEq

/-- StopLevels dataclass (risk_manager.py lines 17-23).  The time-based
stop (a datetime in the source) is embedded as a rational timestamp in
days. -/
structure StopLevels where
  initial_stop : ℚ
  trailing_stop : ℚ
  breakeven_stop : ℚ
  time_stop : ℚ
  profit_stops : List ℚ
deriving DecidableEq

/-- State of a RiskManager instance: capital, merged risk parameters and
the current_positions dict.  The source only ever reads `.value` of each
held position (line 143), so the association list stores that value. -/
structure RiskManagerState where
  capital : ℚ
  risk_params : RiskParams
  current_positions : List (String × ℚ)
deriving DecidableEq

/-- Errors arising from RiskManager.calculate_position_size.
`invalidStopDistance` is the named error of the specification's taxonomy;
`zeroDivisionError` is Python's ZeroDivisionError, raised when a float
division by zero is executed. -/
inductive RiskCalcError where
  | invalidStopDistance
  | zeroDivisionError
deriving DecidableEq

/-- RiskManager._get_regime_adjustment (risk_manager.py lines 125-131). -/
def get_regime_adjustment (rm : RiskManagerState) (regime : MarketRegime) : ℚ :=
  if regime.volatility = "HIGH" then rm.risk_params.position_scaling_factor
  else if regime.volatility = "LOW" ∧ regime.trend = "STRONG" then 1.2
  else 1.0

/-- RiskManager._get_signal_adjustment (risk_manager.py lines 133-139). -/
def get_signal_adjustment (signal_strength : ℚ) : ℚ :=
  if signal_strength > 0.8 then 1.2
  else if signal_strength < 0.4 then 0.8
  else 1.0

/-- RiskManager._get_portfolio_adjustment (risk_manager.py lines 141-150).
The division current_exposure / capital is total here; inside
calculate_position_size it is only reached with capital ≠ 0 (see the
zero-division guard there, matching Python evaluation order). -/
def get_portfolio_adjustment (rm : RiskManagerState) : ℚ :=
  let current_exposure := (rm.current_positions.map Prod.snd).sum
  let exposure_frac := current_exposure / rm.capital
  if exposure_frac > rm.risk_params.max_portfolio_risk then 0.5
  else if exposure_frac < rm.risk_params.max_portfolio_risk * 0.5 then 1.2
  else 1.0

/-- Line 62 of calculate_position_size: risk_amount. -/
def risk_amount_calc (rm : RiskManagerState) : ℚ :=
  rm.capital * rm.risk_params.max_position_size

/-- Line 63 of calculate_position_size: risk_per_share. -/
def risk_per_share_calc (entry_price stop_loss : ℚ) : ℚ :=
  |entry_price - stop_loss|

/-- Line 64 of calculate_position_size: base_units. -/
def base_units_calc (rm : RiskManagerState) (entry_price stop_loss : ℚ) : ℚ :=
  risk_amount_calc rm / risk_per_share_calc entry_price stop_loss

/-- Line 76 of calculate_position_size: adjusted_units. -/
def adjusted_units_calc (rm : RiskManagerState)
    (entry_price stop_loss signal_strength : ℚ) (regime : MarketRegime) : ℚ :=
  base_units_calc rm entry_price stop_loss * get_regime_adjustment rm regime *
    get_signal_adjustment signal_strength * get_portfolio_adjustment rm

/-- Line 80 of calculate_position_size: final_units, the value returned by
the missing _verify_risk_limits hook applied to adjusted_units. -/
def final_units_calc (rm : RiskManagerState)
    (verify_risk_limits : ℚ → ℚ → String → ℚ) (symbol : String)
    (entry_price stop_loss signal_strength : ℚ) (regime : MarketRegime) : ℚ :=
  verify_risk_limits
    (adjusted_units_calc rm entry_price stop_loss signal_strength regime)
    entry_price symbol

/-- RiskManager.calculate_position_size (risk_manager.py lines 53-88).
The helpers _verify_risk_limits (line 80) and _get_position_type (line 87)
are called by the source but defined nowhere in the repository, so they are
passed in as parameters.  Python raises ZeroDivisionError at line 64 when
risk_per_share is zero (before any later division), and at line 144 when
capital is zero; the two guards reproduce that evaluation order. -/
def calculate_position_size (rm : RiskManagerState)
    (verify_risk_limits : ℚ → ℚ → String → ℚ)
    (position_type_of : ℚ → String)
    (symbol : String) (entry_price stop_loss signal_strength : ℚ)
    (market_regime : MarketRegime) : Except RiskCalcError PositionSize :=
  if risk_per_share_calc entry_price stop_loss = 0 then
    .error .zeroDivisionError
  else if rm.capital = 0 then
    .error .zeroDivisionError
  else
    .ok ⟨final_units_calc rm verify_risk_limits symbol entry_price stop_loss
           signal_strength market_regime,
         final_units_calc rm verify_risk_limits symbol entry_price stop_loss
           signal_strength market_regime * entry_price,
         risk_amount_calc rm,
         risk_amount_calc rm / rm.capital,
         position_type_of (get_regime_adjustment rm market_regime)⟩

/-- Lines 98-100 of calculate_stop_levels: the initial stop, with the ATR
multiplier scaled by 1.5 when regime volatility is HIGH. -/
def initial_stop_calc (rm : RiskManagerState)
    (entry_price atr : ℚ) (market_regime : MarketRegime) : ℚ :=
  if market_regime.volatility = "HIGH" then
    entry_price - atr * rm.risk_params.stop_loss_atr_factor * 1.5
  else
    entry_price - atr * rm.risk_params.stop_loss_atr_factor

/-- RiskManager.calculate_stop_levels (risk_manager.py lines 90-123).
`now` stands for datetime.now(), in days; signal_strength is accepted and
unused exactly as in the source. -/
def calculate_stop_levels (rm : RiskManagerState) (now : ℚ)
    (entry_price atr signal_strength : ℚ) (market_regime : MarketRegime) : StopLevels :=
  ⟨initial_stop_calc rm entry_price atr market_regime,
   entry_price - atr * 3,
   entry_price + (entry_price - initial_stop_calc rm entry_price atr market_regime) * 0.3,
   now + 5,
   [(1.5 : ℚ), 2.0, 3.0].map fun multiplier =>
     entry_price + (entry_price - initial_stop_calc rm entry_price atr market_regime) * multiplier⟩

/-- OrderType enum (execution_engine.py lines 11-16). -/
inductive OrderType where
  | market
  | limit
  | stop
  | stop_limit
  | trailing_stop
deriving DecidableEq

/-- The recognized order kinds, i.e. the members of the OrderType enum. -/
def OrderType.recognized : List OrderType :=
  [.market, .limit, .stop, .stop_limit, .trailing_stop]

/-- OrderStatus enum (execution_engine.py lines 18-24). -/
inductive OrderStatus where
  | pending
  | submitted
  | partialFill
  | filled
  | cancelled
  | rejected
deriving DecidableEq

/-- Terminal-state test of the monitoring loop (execution_engine.py line
119: status in [FILLED, CANCELLED, REJECTED]). -/
def OrderStatus.isTerminal : OrderStatus → Bool
  | .filled | .cancelled | .rejected => true
  | _ => false

/-- Order dataclass (execution_engine.py lines 26-40). -/
structure Order where
  symbol : String
  order_type : OrderType
  side : String
  quantity : ℚ
  price : Option ℚ
  stop_price : Option ℚ
  time_in_force : String
  order_id : String
  status : OrderStatus
  filled_quantity : ℚ
  average_fill_price : ℚ
  commission : ℚ
  notes : String
deriving DecidableEq

/-- An opaque broker-originated fault (an exception raised by a broker
call or observed while monitoring). -/
structure BrokerFault where
  code : ℕ
deriving DecidableEq

/-- Errors raised by OrderManager.submit_order: the ValueError of
_validate_order, or a fault propagated from the broker submit call. -/
inductive SubmitError where
  | valueError (msg : String)
  | brokerError (f : BrokerFault)
deriving DecidableEq

/-- State of an OrderManager (execution_engine.py lines 134-139): the full
order registry, the filled_orders dict (declared in __init__ and never
written by the source), and the active-orders dict.  The source stores
order objects in active_orders but only ever consults and deletes its
keys, so the model keeps the key set. -/
structure OrderManagerState where
  orders : List (String × Order)
  filled_orders : List (String × Order)
  active_orders : List String
deriving DecidableEq

/-- First-match lookup in an association list, the evaluation of a Python
dict read d[k] on the models used here. -/
def dlookup {α : Type} : List (String × α) → String → Option α
  | [], _ => none
  | (k, v) :: rest, s => if k = s then some v else dlookup rest s

/-- Python dict assignment d[k] = v: replace in place if the key exists,
otherwise append. -/
def dinsert {α : Type} (k : String) (v : α) : List (String × α) → List (String × α)
  | [] => [(k, v)]
  | (k', v') :: rest =>
    if k' = k then (k, v) :: rest else (k', v') :: dinsert k v rest

/-- Python dict assignment on the key set kept for active_orders. -/
def key_insert (k : String) (l : List String) : List String :=
  if k ∈ l then l else l ++ [k]

/-- OrderManager._validate_order (execution_engine.py lines 173-178).
Python truthiness: `not order.symbol` holds exactly for the empty string
and `not order.quantity` exactly for quantity 0; the membership test
`order.order_type not in OrderType` is evaluated over the enum members. -/
def validate_order (order : Order) : Except SubmitError Unit :=
  if order.symbol = "" ∨ order.quantity = 0 then
    .error (.valueError "Invalid order parameters")
  else if ¬ (order.order_type ∈ OrderType.recognized) then
    .error (.valueError "Invalid order type")
  else .ok ()

/-- OrderManager.submit_order (execution_engine.py lines 141-158).  The
broker capability is passed as the result of its submit call; on success
the broker-returned order is registered in both the full registry and the
active set, keyed by its order_id. -/
def submit_order (broker_submit : Except BrokerFault Order)
    (st : OrderManagerState) (order : Order) :
    Except SubmitError (OrderManagerState × Order) :=
  match validate_order order with
  | .error e => .error e
  | .ok _ =>
    match broker_submit with
    | .error f => .error (.brokerError f)
    | .ok submitted_order =>
      .ok ({ st with
             orders := dinsert submitted_order.order_id submitted_order st.orders,
             active_orders := key_insert submitted_order.order_id st.active_orders },
           submitted_order)

/-- Status overwrite self.orders[order_id].status = s on the registry. -/
def set_status : List (String × Order) → String → OrderStatus → List (String × Order)
  | [], _, _ => []
  | (k, o) :: rest, order_id, s =>
    (k, if k = order_id then { o with status := s } else o) ::
      set_status rest order_id s

/-- OrderManager.cancel_order (execution_engine.py lines 160-171).  The
broker capability is passed as the result of its cancel call; if that call
raises, the except branch logs and re-raises, so no state is mutated.  The
active-set membership test is the only guard: the registry status of the
order is never consulted. -/
def cancel_order (broker_cancel : Except BrokerFault Bool)
    (st : OrderManagerState) (order_id : String) :
    Except BrokerFault (OrderManagerState × Bool) :=
  if order_id ∈ st.active_orders then
    match broker_cancel with
    | .error e => .error e
    | .ok _ =>
      .ok ({ st with
             active_orders := st.active_orders.filter (fun x => x ≠ order_id),
             orders := set_status st.orders order_id .cancelled }, true)
  else .ok (st, false)

/-- Modelled from the spec: OrderManager.get_order_status, called by the
monitoring loop at execution_engine.py line 120, is absent from the source
tree.  Per the spec (sections 4.1 and 4.2) it surfaces the registry entry
as updated by broker fill reports, and a fill report with
filled == quantity moves a Submitted or Partial order to Filled.  The spec
assigns fill reports no effect on the active-orders set. -/
def apply_full_fill (st : OrderManagerState) (order_id : String) : OrderManagerState :=
  { st with
    orders := st.orders.map fun p =>
      if p.1 = order_id ∧ (p.2.status = .submitted ∨ p.2.status = .partialFill) then
        (p.1, { p.2 with status := .filled, filled_quantity := p.2.quantity })
      else p }

/-- Outcome of the monitoring loop: the terminal order was returned, an
exception propagated (carrying the state at that point), or the poll
budget ran out while the order was still non-terminal. -/
inductive MonitorOutcome where
  | finished (st : OrderManagerState) (order : Order)
  | failed (st : OrderManagerState) (fault : BrokerFault)
  | running (st : OrderManagerState)
deriving DecidableEq

/-- ExecutionEngine._monitor_execution (execution_engine.py lines
116-132).  Each poll is the outcome of one get_order_status call (that
method is absent from the source; its results are modelled from the spec
as the order's current status, or a broker fault).  On a fault the except
branch (lines 129-132) logs, awaits cancel_order and re-raises; a fault
raised by cancel_order itself therefore leaves the except branch and is
the exception that propagates.  The _handle_partial_fill hook (line 123)
is absent from the source and has no modelled effect. -/
def monitor_execution (broker_cancel : Except BrokerFault Bool)
    (polls : List (Except BrokerFault OrderStatus))
    (st : OrderManagerState) (order : Order) : MonitorOutcome :=
  if order.status.isTerminal then .finished st order
  else
    match polls with
    | [] => .running st
    | poll :: rest =>
      match poll with
      | .error e =>
        match cancel_order broker_cancel st order.order_id with
        | .error cancel_fault => .failed st cancel_fault
        | .ok (st', _) => .failed st' e
      | .ok s =>
        monitor_execution broker_cancel rest
          { st with orders := set_status st.orders order.order_id s }
          { order with status := s }

/-- Signal dict as read by PositionManager.open_position (risk_manager.py
lines 278-292): the price, stop_loss, strength and atr keys. -/
structure Signal where
  price : ℚ
  stop_loss : ℚ
  strength : ℚ
  atr : ℚ
deriving DecidableEq

/-- Position dict built by PositionManager.open_position (risk_manager.py
lines 295-303).  current_price and unrealized_pl are absent until the
first update (hence Option). -/
structure Position where
  symbol : String
  entry_price : ℚ
  size : PositionSize
  stops : StopLevels
  entry_time : ℚ
  signal : Signal
  market_regime : MarketRegime
  current_price : Option ℚ
  unrealized_pl : Option ℚ
deriving DecidableEq

/-- Errors of the Position Manager per the specification's taxonomy.
`positionAlreadyOpen` is named by the spec for duplicate opens;
`calcError` lifts an error raised inside calculate_position_size. -/
inductive PositionError where
  | positionAlreadyOpen
  | calcError (e : RiskCalcError)
deriving DecidableEq

/-- State of a PositionManager (risk_manager.py lines 265-269). -/
structure PositionManagerState where
  risk_manager : RiskManagerState
  positions : List (String × Position)
  position_history : List Position
deriving DecidableEq

/-- PositionManager.open_position (risk_manager.py lines 271-309).  The
missing _verify_risk_limits and _get_position_type helpers of the risk
manager are threaded through; `now` stands for datetime.now().  The
source stores the new position unconditionally: it never checks whether
the symbol already has an active entry. -/
def open_position (pm : PositionManagerState)
    (verify_risk_limits : ℚ → ℚ → String → ℚ)
    (position_type_of : ℚ → String)
    (now : ℚ) (symbol : String) (signal : Signal) (market_regime : MarketRegime) :
    Except PositionError (PositionManagerState × Position) :=
  match calculate_position_size pm.risk_manager verify_risk_limits position_type_of
      symbol signal.price signal.stop_loss signal.strength market_regime with
  | .error e => .error (.calcError e)
  | .ok position_size =>
    let stop_levels := calculate_stop_levels pm.risk_manager now
      signal.price signal.atr signal.strength market_regime
    let position : Position :=
      ⟨symbol, signal.price, position_size, stop_levels, now, signal,
       market_regime, none, none⟩
    .ok ({ pm with
           positions := dinsert symbol position pm.positions,
           position_history := pm.position_history ++ [position] },
         position)

/-- The refreshed position record built by update_position (risk_manager.py
lines 321-331): the trailing stop ratchets to max(existing trailing stop,
current_price − current_atr × stop_loss_atr_factor), and current price and
unrealized P&L are refreshed. -/
def updated_position (pm : PositionManagerState) (position : Position)
    (current_price current_atr : ℚ) : Position :=
  let new_trailing_stop := max position.stops.trailing_stop
    (current_price - current_atr * pm.risk_manager.risk_params.stop_loss_atr_factor)
  { position with
    stops := { position.stops with trailing_stop := new_trailing_stop },
    current_price := some current_price,
    unrealized_pl := some ((current_price - position.entry_price) * position.size.units) }

/-- PositionManager.update_position (risk_manager.py lines 311-333):
returns none when the symbol has no active entry, otherwise stores and
returns the refreshed position. -/
def update_position (pm : PositionManagerState) (symbol : String)
    (current_price current_atr : ℚ) : Option (PositionManagerState × Position) :=
  match dlookup pm.positions symbol with
  | none => none
  | some position =>
    let position' := updated_position pm position current_price current_atr
    some ({ pm with positions := dinsert symbol position' pm.positions }, position')

/-- Repeated update_position calls for one symbol over a list of
(current_price, current_atr) observations; a call returning none (no such
position) leaves the state unchanged, as in the source. -/
def run_updates (pm : PositionManagerState) (symbol : String) :
    List (ℚ × ℚ) → PositionManagerState
  | [] => pm
  | (p, a) :: rest =>
    match update_position pm symbol p a with
    | none => run_updates pm symbol rest
    | some (pm', _) => run_updates pm' symbol rest

/-- Identity clamp used to instantiate the missing _verify_risk_limits
hook in concrete runs (the hook receives adjusted_units, entry_price and
symbol and yields final_units). -/
def clamp_id : ℚ → ℚ → String → ℚ := fun units _ _ => units

/-- Constant classification tag used to instantiate the missing
_get_position_type hook in concrete runs. -/
def type_full : ℚ → String := fun _ => "full"

/-- Risk manager instance of Scenario A: capital 100000, default
parameters, no current positions. -/
def rmA : RiskManagerState := ⟨100000, defaultRiskParams, []⟩

/-- Market regime with NORMAL trend and NORMAL volatility. -/
def regA : MarketRegime := ⟨"NORMAL", "NORMAL", 0.5, 0.5⟩

/-- Market regime with NEUTRAL trend and LOW volatility. -/
def regLow : MarketRegime := ⟨"NEUTRAL", "LOW", 0.5, 0.5⟩

/-- Market regime with NEUTRAL trend and HIGH volatility. -/
def regHigh : MarketRegime := ⟨"NEUTRAL", "HIGH", 0.5, 0.5⟩

/-- PositionSize produced for Scenario A with the identity clamp. -/
def psA : PositionSize := ⟨1200, 60000, 2000, 0.02, "full"⟩

/-- C1: for capital 100000 with default risk parameters, entry 50, stop
48, signal strength 0.5, a NORMAL/NORMAL regime and portfolio exposure
below half of max_portfolio_risk, calculate_position_size yields
risk_amount 2000, base units 1000, regime factor 1.0, signal factor 1.0,
portfolio factor 1.2 and final units 1200 before the portfolio and
correlation clamps (the _verify_risk_limits hook). -/
theorem sizing_example_a (rm : RiskManagerState) (regime : MarketRegime)
    (hcap : rm.capital = 100000)
    (hparams : rm.risk_params = defaultRiskParams)
    (htrend : regime.trend = "NORMAL")
    (hvol : regime.volatility = "NORMAL")
    (hexp : (rm.current_positions.map Prod.snd).sum / rm.capital <
            rm.risk_params.max_portfolio_risk * 0.5) :
    risk_amount_calc rm = 2000 ∧
    base_units_calc rm 50 48 = 1000 ∧
    get_regime_adjustment rm regime = 1 ∧
    get_signal_adjustment 0.5 = 1 ∧
    get_portfolio_adjustment rm = 1.2 ∧
    adjusted_units_calc rm 50 48 0.5 regime = 1200 := by
  have h1 : risk_amount_calc rm = 2000 := by
    rw [risk_amount_calc, hcap, hparams]
    norm_num [defaultRiskParams]
  have h2 : base_units_calc rm 50 48 = 1000 := by
    rw [base_units_calc, risk_per_share_calc, h1]
    norm_num
  have h3 : get_regime_adjustment rm regime = 1 := by
    rw [get_regime_adjustment, hvol]
    norm_num
    simp +decide
  have h4 : get_signal_adjustment 0.5 = 1 := by
    rw [get_signal_adjustment]
    norm_num
  have hexp' : (rm.current_positions.map Prod.snd).sum / rm.capital < 1/40 := by
    rw [hparams] at hexp
    simp only [defaultRiskParams] at hexp
    norm_num at hexp
    linarith
  have h5 : get_portfolio_adjustment rm = 1.2 := by
    simp only [get_portfolio_adjustment, hparams, defaultRiskParams]
    rw [if_neg (by norm_num; linarith), if_pos (by norm_num; linarith)]
  have h6 : adjusted_units_calc rm 50 48 0.5 regime = 1200 := by
    rw [adjusted_units_calc, h2, h3, h4, h5]
    norm_num
  exact ⟨h1, h2, h3, h4, h5, h6⟩

/-- Witness for C1, instantiated at rmA and regA (empty portfolio, hence
exposure 0 below half of max_portfolio_risk). -/
theorem sizing_example_a_holds :
    risk_amount_calc rmA = 2000 ∧
    base_units_calc rmA 50 48 = 1000 ∧
    get_regime_adjustment rmA regA = 1 ∧
    get_signal_adjustment 0.5 = 1 ∧
    get_portfolio_adjustment rmA = 1.2 ∧
    adjusted_units_calc rmA 50 48 0.5 regA = 1200 :=
  sizing_example_a rmA regA rfl rfl rfl rfl
    (by norm_num [rmA, defaultRiskParams])

/-- C3: whenever calculate_position_size returns a PositionSize, its
risk_amount field equals capital × max_position_size, independently of the
regime, signal and portfolio adjustment factors (which scale only the
units field). -/
theorem risk_amount_invariant (rm : RiskManagerState)
    (verify_risk_limits : ℚ → ℚ → String → ℚ) (position_type_of : ℚ → String)
    (symbol : String) (entry_price stop_loss signal_strength : ℚ)
    (regime : MarketRegime) (ps : PositionSize)
    (h : calculate_position_size rm verify_risk_limits position_type_of symbol
          entry_price stop_loss signal_strength regime = .ok ps) :
    ps.risk_amount = rm.capital * rm.risk_params.max_position_size := by
  rw [calculate_position_size] at h
  split at h
  · exact Except.noConfusion h
  · split at h
    · exact Except.noConfusion h
    · injection h with h'
      subst h'
      rfl

/-- Witness for C3, instantiated at Scenario A inputs with the identity
clamp: the returned PositionSize is psA, whose risk_amount is
100000 × 0.02 = 2000. -/
theorem risk_amount_invariant_holds :
    calculate_position_size rmA clamp_id type_full "SYM" 50 48 0.5 regA = .ok psA ∧
    psA.risk_amount = rmA.capital * rmA.risk_params.max_position_size := by
  refine ⟨?_, risk_amount_invariant rmA clamp_id type_full "SYM" 50 48 0.5 regA psA ?_⟩ <;>
    (norm_num [calculate_position_size, risk_per_share_calc, rmA, regA, psA,
       final_units_calc, adjusted_units_calc, base_units_calc, risk_amount_calc,
       get_regime_adjustment, get_signal_adjustment, get_portfolio_adjustment,
       clamp_id, type_full, defaultRiskParams]
     simp +decide)

/-- C5 counterexample: at entry 50 and stop 50 the risk distance is zero,
yet calculate_position_size does not fail with the InvalidStopDistance
check the claim describes — the source has no such check; the computation
reaches the division base_units = risk_amount / risk_per_share and fails
with Python's ZeroDivisionError. -/
theorem stop_distance_check_counterexample :
    risk_per_share_calc 50 50 ≤ 0 ∧
    calculate_position_size rmA clamp_id type_full "SYM" 50 50 0.5 regA =
      .error .zeroDivisionError ∧
    calculate_position_size rmA clamp_id type_full "SYM" 50 50 0.5 regA ≠
      .error .invalidStopDistance := by
  refine ⟨by norm_num [risk_per_share_calc], ?_, ?_⟩
  · norm_num [calculate_position_size, risk_per_share_calc]
  · norm_num [calculate_position_size, risk_per_share_calc]
    decide

/-- C5 amended: a zero risk distance makes calculate_position_size fail
with ZeroDivisionError at the base_units division (there is no explicit
InvalidStopDistance validation in the source), the distance is never
silently clamped, and — being an absolute value — it is never negative. -/
theorem zero_stop_distance_division :
    (∀ (rm : RiskManagerState) (verify_risk_limits : ℚ → ℚ → String → ℚ)
       (position_type_of : ℚ → String) (symbol : String)
       (entry_price stop_loss signal_strength : ℚ) (regime : MarketRegime),
       risk_per_share_calc entry_price stop_loss = 0 →
       calculate_position_size rm verify_risk_limits position_type_of symbol
         entry_price stop_loss signal_strength regime = .error .zeroDivisionError) ∧
    (∀ entry_price stop_loss : ℚ, 0 ≤ risk_per_share_calc entry_price stop_loss) := by
  constructor
  · intro rm vrl pt symbol e s ss regime h
    rw [calculate_position_size, if_pos h]
  · intro e s
    exact abs_nonneg _

/-- Witness for the amended C5 at entry 50 and stop 50. -/
theorem zero_stop_distance_division_holds :
    calculate_position_size rmA clamp_id type_full "SYM" 50 50 0.5 regA =
      .error .zeroDivisionError :=
  zero_stop_distance_division.1 rmA clamp_id type_full "SYM" 50 50 0.5 regA
    (by norm_num [risk_per_share_calc])

/-- C7: for entry 100, ATR 5, default stop_loss_atr_factor 2.0 and a
regime with HIGH volatility, calculate_stop_levels yields initial_stop 85
(multiplier scaled by 1.5), trailing_stop 85, breakeven_stop 104.5 and
profit_stops [122.5, 130, 145] in ascending order. -/
theorem stop_levels_example_b (rm : RiskManagerState)
    (now signal_strength : ℚ) (regime : MarketRegime)
    (hparams : rm.risk_params = defaultRiskParams)
    (hvol : regime.volatility = "HIGH") :
    (calculate_stop_levels rm now 100 5 signal_strength regime).initial_stop = 85 ∧
    (calculate_stop_levels rm now 100 5 signal_strength regime).trailing_stop = 85 ∧
    (calculate_stop_levels rm now 100 5 signal_strength regime).breakeven_stop = 104.5 ∧
    (calculate_stop_levels rm now 100 5 signal_strength regime).profit_stops =
      [122.5, 130, 145] ∧
    List.Chain' (· < ·)
      (calculate_stop_levels rm now 100 5 signal_strength regime).profit_stops := by
  have hi : initial_stop_calc rm 100 5 regime = 85 := by
    rw [initial_stop_calc, hvol, hparams, if_pos rfl]
    norm_num [defaultRiskParams]
  refine ⟨?_, ?_, ?_, ?_, ?_⟩ <;>
    simp only [calculate_stop_levels, hi, List.map] <;> norm_num

/-- Witness for C7 at regHigh with now = 0 and strength 0.5. -/
theorem stop_levels_example_b_holds :
    (calculate_stop_levels rmA 0 100 5 0.5 regHigh).initial_stop = 85 ∧
    (calculate_stop_levels rmA 0 100 5 0.5 regHigh).trailing_stop = 85 ∧
    (calculate_stop_levels rmA 0 100 5 0.5 regHigh).breakeven_stop = 104.5 ∧
    (calculate_stop_levels rmA 0 100 5 0.5 regHigh).profit_stops = [122.5, 130, 145] ∧
    List.Chain' (· < ·) (calculate_stop_levels rmA 0 100 5 0.5 regHigh).profit_stops :=
  stop_levels_example_b rmA 0 0.5 regHigh rfl rfl

/-- C10: for every regime whose trend lies in the documented domain
BULLISH / BEARISH / NEUTRAL and whose volatility is not HIGH, the regime
adjustment factor is exactly 1.0 — the 1.2 low-volatility boost branch
compares the trend against the literal STRONG, which no documented trend
value equals, so that branch cannot fire. -/
theorem regime_boost_unreachable (rm : RiskManagerState) (regime : MarketRegime)
    (htrend : regime.trend = "BULLISH" ∨ regime.trend = "BEARISH" ∨
              regime.trend = "NEUTRAL")
    (hvol : regime.volatility ≠ "HIGH") :
    get_regime_adjustment rm regime = 1 := by
  have hstrong : regime.trend ≠ "STRONG" := by
    rcases htrend with h | h | h <;> rw [h] <;> decide
  rw [get_regime_adjustment, if_neg hvol,
    if_neg (by rintro ⟨-, h⟩; exact hstrong h)]
  norm_num

/-- Witness for C10 at a NEUTRAL/LOW regime, the regime most likely to hit
the boost branch if it were reachable. -/
theorem regime_boost_unreachable_holds :
    get_regime_adjustment rmA regLow = 1 :=
  regime_boost_unreachable rmA regLow (Or.inr (Or.inr rfl)) (by decide)

/-- A pending market order as constructed before submission. -/
def order1 : Order :=
  ⟨"AAPL", .market, "BUY", 100, none, none, "DAY", "ord-1", .pending, 0, 0, 0, ""⟩

/-- The same order as returned by a spec-conforming broker submit call:
submission success moves Pending to Submitted. -/
def order1s : Order := { order1 with status := OrderStatus.submitted }

/-- The registry entry after a full fill report. -/
def order1f : Order :=
  { order1s with status := OrderStatus.filled, filled_quantity := 100 }

/-- The registry entry after cancel_order overwrites the filled entry. -/
def order1c : Order := { order1f with status := OrderStatus.cancelled }

/-- The empty order manager produced by OrderManager.__init__. -/
def om0 : OrderManagerState := ⟨[], [], []⟩

/-- Order manager state after submitting order1: the submitted order is in
the registry and its id is active. -/
def om1 : OrderManagerState := ⟨[("ord-1", order1s)], [], ["ord-1"]⟩

/-- Order manager state after a full fill report on om1: the registry
entry is Filled, yet the id is still in the active set, because nothing in
the source removes filled orders from active_orders. -/
def om2 : OrderManagerState := ⟨[("ord-1", order1f)], [], ["ord-1"]⟩

/-- Order manager state after cancel_order succeeds on om2. -/
def om3 : OrderManagerState := ⟨[("ord-1", order1c)], [], []⟩

/-- Lookup after a dict assignment on the same key yields the new value. -/
theorem dlookup_dinsert {α : Type} (k : String) (v : α) (l : List (String × α)) :
    dlookup (dinsert k v l) k = some v := by
  induction l with
  | nil => simp [dinsert, dlookup]
  | cons hd t ih =>
    obtain ⟨k', v'⟩ := hd
    by_cases hk : k' = k
    · simp [dinsert, hk, dlookup]
    · simp [dinsert, hk, dlookup, ih]

/-- Lookup after a status overwrite yields the entry with the new status. -/
theorem dlookup_set_status (l : List (String × Order)) (oid : String) (s : OrderStatus) :
    dlookup (set_status l oid s) oid =
      (dlookup l oid).map fun o => { o with status := s } := by
  induction l with
  | nil => simp [set_status, dlookup]
  | cons hd t ih =>
    obtain ⟨k', o⟩ := hd
    by_cases hk : k' = oid
    · subst hk
      simp [set_status, dlookup]
    · simp [set_status, dlookup, hk, ih]

/-- A key is a member of the active set after its dict assignment. -/
theorem self_mem_key_insert (k : String) (l : List String) : k ∈ key_insert k l := by
  rw [key_insert]
  split
  · assumption
  · simp

/-- A key is never a member of the active set it was deleted from. -/
theorem not_mem_filter_self (k : String) (l : List String) :
    k ∉ l.filter fun x => x ≠ k := by
  simp [List.mem_filter]

/-- C2 counterexample: cancel_order guards only on active-set membership,
never on the registry status.  Starting from an empty manager, submitting
order1 and applying a full fill report (which, per the spec, does not
touch the active set) reaches a state om2 whose registry entry is the
terminal status Filled while the id is still active; cancel_order then
returns true — not false — and overwrites the terminal status with
Cancelled, so cancellation is not a no-op on terminal orders. -/
theorem cancel_terminal_counterexample :
    submit_order (.ok order1s) om0 order1 = .ok (om1, order1s) ∧
    apply_full_fill om1 "ord-1" = om2 ∧
    dlookup om2.orders "ord-1" = some order1f ∧
    order1f.status.isTerminal = true ∧
    cancel_order (.ok true) om2 "ord-1" = .ok (om3, true) ∧
    cancel_order (.ok true) om2 "ord-1" ≠ .ok (om2, false) ∧
    dlookup om3.orders "ord-1" = some order1c ∧
    order1c.status = .cancelled := by
  refine ⟨?_, ?_, ?_, ?_, ?_, ?_, ?_, ?_⟩ <;>
    simp +decide [submit_order, validate_order, OrderType.recognized, key_insert,
      dinsert, dlookup, apply_full_fill, cancel_order, set_status,
      OrderStatus.isTerminal, om0, om1, om2, om3, order1, order1s, order1f, order1c]

/-- C2 amended: cancel_order returns false and is a no-op exactly when the
order id is not in the active set; since a successful cancel removes the
id from the active set, repeated cancel calls after a cancellation are
idempotent and keep returning false.  (A terminal registry status alone
does not protect an order that is still in the active set; see the
counterexample.) -/
theorem cancel_inactive_noop :
    (∀ (bc : Except BrokerFault Bool) (st : OrderManagerState) (oid : String),
       oid ∉ st.active_orders → cancel_order bc st oid = .ok (st, false)) ∧
    (∀ (bc bc' : Except BrokerFault Bool) (st st' : OrderManagerState) (oid : String),
       cancel_order bc st oid = .ok (st', true) →
       cancel_order bc' st' oid = .ok (st', false)) := by
  have h1 : ∀ (bc : Except BrokerFault Bool) (st : OrderManagerState) (oid : String),
      oid ∉ st.active_orders → cancel_order bc st oid = .ok (st, false) := by
    intro bc st oid h
    rw [cancel_order.eq_def, if_neg h]
  refine ⟨h1, ?_⟩
  intro bc bc' st st' oid h
  rw [cancel_order.eq_def] at h
  split at h
  · cases bc with
    | error e => exact Except.noConfusion h
    | ok b =>
      injection h with h'
      have hfst := congrArg Prod.fst h'
      simp only at hfst
      subst hfst
      exact h1 bc' _ oid (not_mem_filter_self oid st.active_orders)
  · injection h with h'
    have hsnd := congrArg Prod.snd h'
    simp at hsnd

/-- Witness for the amended C2: cancelling an id absent from the active
set is a no-op returning false, and a second cancel right after a
successful one returns false. -/
theorem cancel_inactive_noop_holds :
    cancel_order (.ok true) om0 "ord-1" = .ok (om0, false) ∧
    cancel_order (.ok true) om3 "ord-1" = .ok (om3, false) :=
  ⟨cancel_inactive_noop.1 (.ok true) om0 "ord-1" (by simp [om0]),
   cancel_inactive_noop.2 (.ok true) (.ok true) om2 om3 "ord-1"
     (by simp +decide [cancel_order, set_status, om2, om3, order1f, order1c,
        order1s, order1])⟩

/-- A broker fault observed while polling order status. -/
def fault1 : BrokerFault := ⟨1⟩

/-- A distinct broker fault raised by the compensating cancel call. -/
def fault2 : BrokerFault := ⟨2⟩

/-- The submitted order entry after the compensating cancel succeeds. -/
def order1sc : Order := { order1s with status := OrderStatus.cancelled }

/-- Order manager state after a successful compensating cancel on om1. -/
def omC : OrderManagerState := ⟨[("ord-1", order1sc)], [], []⟩

/-- C6 counterexample: a fault (fault1) during monitoring of the Submitted
order triggers the compensating cancel, but when the broker cancel call
itself raises (fault2), cancel_order re-raises instead of swallowing it:
the fault that propagates out of the monitoring loop is fault2 — the
cancel failure, not the original fault — and the order does not end
Cancelled (its status is still Submitted). -/
theorem monitor_fault_counterexample :
    order1s.status = .submitted ∧
    monitor_execution (.error fault2) [.error fault1] om1 order1s =
      .failed om1 fault2 ∧
    fault2 ≠ fault1 ∧
    dlookup om1.orders "ord-1" = some order1s ∧
    order1s.status ≠ .cancelled := by
  refine ⟨rfl, ?_, by decide, by simp [om1, dlookup], by decide⟩
  simp +decide [monitor_execution, OrderStatus.isTerminal, cancel_order,
    om1, order1s, order1, set_status]

/-- C6 amended: on a fault during monitoring of a Submitted order whose id
is active, the loop attempts the compensating cancel; when the broker
cancel call returns (rather than raising), the order's registry entry is
forced to Cancelled, its id leaves the active set, and the original fault
is the one propagated to the caller.  (When the broker cancel call itself
raises, the cancel fault propagates instead — see the counterexample.) -/
theorem monitor_fault_compensation (st : OrderManagerState) (order : Order)
    (e : BrokerFault) (rest : List (Except BrokerFault OrderStatus)) (b : Bool)
    (o : Order)
    (hs : order.status = .submitted)
    (ha : order.order_id ∈ st.active_orders)
    (ho : dlookup st.orders order.order_id = some o) :
    monitor_execution (.ok b) (.error e :: rest) st order =
      .failed { st with
                active_orders := st.active_orders.filter fun x => x ≠ order.order_id,
                orders := set_status st.orders order.order_id .cancelled } e ∧
    dlookup (set_status st.orders order.order_id .cancelled) order.order_id =
      some { o with status := OrderStatus.cancelled } ∧
    order.order_id ∉ st.active_orders.filter fun x => x ≠ order.order_id := by
  refine ⟨?_, ?_, not_mem_filter_self _ _⟩
  · have hc : cancel_order (.ok b) st order.order_id =
        .ok ({ st with
               active_orders := st.active_orders.filter fun x => x ≠ order.order_id,
               orders := set_status st.orders order.order_id .cancelled }, true) := by
      rw [cancel_order.eq_def, if_pos ha]
    rw [monitor_execution.eq_def, hs]
    simp only [OrderStatus.isTerminal, hc]
    simp
  · rw [dlookup_set_status, ho]
    rfl

/-- Witness for the amended C6: fault1 on the first poll of om1's
Submitted order with a succeeding broker cancel ends with the order
Cancelled, removed from the active set, and fault1 propagated. -/
theorem monitor_fault_compensation_holds :
    monitor_execution (.ok true) [.error fault1] om1 order1s = .failed omC fault1 ∧
    dlookup omC.orders "ord-1" = some order1sc ∧
    "ord-1" ∉ omC.active_orders := by
  have h := monitor_fault_compensation om1 order1s fault1 [] true order1s rfl
    (by simp [om1, order1s, order1])
    (by simp [om1, dlookup, order1s, order1])
  obtain ⟨h1, h2, h3⟩ := h
  refine ⟨?_, ?_, by simp [omC]⟩
  · rw [h1]
    simp +decide [om1, omC, set_status, order1s, order1, order1sc]
  · simp +decide [omC, dlookup, order1sc, order1s, order1]

/-- An order with a negative quantity, otherwise well-formed. -/
def order9 : Order :=
  ⟨"AAPL", .market, "BUY", -5, none, none, "DAY", "ord-9", .pending, 0, 0, 0, ""⟩

/-- order9 as returned by the broker submit call. -/
def order9s : Order := { order9 with status := OrderStatus.submitted }

/-- Order manager state after order9 is submitted and registered. -/
def om9 : OrderManagerState := ⟨[("ord-9", order9s)], [], ["ord-9"]⟩

/-- C9 counterexample: _validate_order embeds Python's `not order.quantity`,
which only catches quantity 0 — the strictly negative quantity −5 passes
validation, and on broker success the order is registered in both
registries, contradicting the claim that any quantity not strictly greater
than 0 fails with InvalidOrder. -/
theorem negative_quantity_counterexample :
    order9.quantity < 0 ∧
    ¬ order9.quantity > 0 ∧
    validate_order order9 = .ok () ∧
    submit_order (.ok order9s) om0 order9 = .ok (om9, order9s) := by
  refine ⟨by norm_num [order9], by norm_num [order9], ?_, ?_⟩
  · rw [validate_order]
    rw [if_neg (by norm_num [order9]; decide), if_neg (by simp +decide [order9, OrderType.recognized])]
  · rw [submit_order.eq_def]
    rw [show validate_order order9 = .ok () from ?_]
    · simp +decide [om0, om9, dinsert, key_insert, order9s, order9]
    · rw [validate_order]
      rw [if_neg (by norm_num [order9]; decide), if_neg (by simp +decide [order9, OrderType.recognized])]

/-- C9 amended: validation fails with a ValueError exactly when the symbol
is empty or the quantity equals 0 (Python truthiness: negative quantities
pass, and the order-kind check cannot fire since every OrderType value is
a recognized kind); an order passing validation is, on broker success,
registered in both the full registry and the active-orders set. -/
theorem validation_amended :
    (∀ order : Order, (∃ e, validate_order order = .error e) ↔
       (order.symbol = "" ∨ order.quantity = 0)) ∧
    (∀ (st : OrderManagerState) (order submitted : Order)
       (st' : OrderManagerState) (r : Order),
       submit_order (.ok submitted) st order = .ok (st', r) →
       r = submitted ∧
       dlookup st'.orders submitted.order_id = some submitted ∧
       submitted.order_id ∈ st'.active_orders) := by
  constructor
  · intro order
    have hmem : order.order_type ∈ OrderType.recognized := by
      cases order.order_type <;> simp [OrderType.recognized]
    constructor
    · rintro ⟨e, he⟩
      by_cases h : order.symbol = "" ∨ order.quantity = 0
      · exact h
      · rw [validate_order, if_neg h, if_neg (not_not_intro hmem)] at he
        exact Except.noConfusion he
    · intro h
      rw [validate_order, if_pos h]
      exact ⟨_, rfl⟩
  · intro st order submitted st' r h
    rw [submit_order.eq_def] at h
    cases hv : validate_order order with
    | error e => rw [hv] at h; exact Except.noConfusion h
    | ok u =>
      rw [hv] at h
      injection h with h'
      have hfst := congrArg Prod.fst h'
      have hsnd := congrArg Prod.snd h'
      simp only at hfst hsnd
      subst hfst
      subst hsnd
      exact ⟨rfl, dlookup_dinsert _ _ _, self_mem_key_insert _ _⟩

/-- Witness for the amended C9: order1 (nonempty symbol, quantity 100) has
no validation error, and its submission registers it in both registries. -/
theorem validation_amended_holds :
    (¬ ((∃ e, validate_order order1 = .error e) ↔ True)) ∧
    order1s = order1s ∧
    dlookup om1.orders "ord-1" = some order1s ∧
    "ord-1" ∈ om1.active_orders := by
  constructor
  · intro hiff
    have h := (validation_amended.1 order1).mp (hiff.mpr trivial)
    simp +decide [order1] at h
  · have h := validation_amended.2 om0 order1 order1s om1 order1s
      (by rw [submit_order.eq_def]
          rw [show validate_order order1 = .ok () from ?_]
          · simp +decide [om0, om1, dinsert, key_insert, order1s, order1]
          · rw [validate_order]
            rw [if_neg (by norm_num [order1]; decide),
              if_neg (by simp +decide [order1, OrderType.recognized])])
    simpa [order1s, order1] using h

/-- A trading signal: price 50, stop 48, strength 0.5, ATR 5. -/
def sig8 : Signal := ⟨50, 48, 0.5, 5⟩

/-- Stop levels of an already-open position. -/
def stops8 : StopLevels := ⟨41, 36, 53, 6, [66, 71, 81]⟩

/-- An open AAPL position held by the position manager. -/
def pos8 : Position := ⟨"AAPL", 50, psA, stops8, 0, sig8, regA, none, none⟩

/-- Position manager state with pos8 active (its risk manager holds
capital 100000 with defaults and an empty current_positions dict, which
the source never updates). -/
def pm8 : PositionManagerState := ⟨rmA, [("AAPL", pos8)], [pos8]⟩

/-- Stop levels computed by calculate_stop_levels for sig8 under regA at
now = 0: initial 40, trailing 35, breakeven 53, time stop 5, profit stops
65 / 70 / 80. -/
def stops8n : StopLevels := ⟨40, 35, 53, 5, [65, 70, 80]⟩

/-- The position built by a second open_position call on "AAPL". -/
def pos8n : Position := ⟨"AAPL", 50, psA, stops8n, 0, sig8, regA, none, none⟩

/-- Position manager state after the duplicate open: the registry entry is
overwritten by pos8n and the history holds both records. -/
def pm8n : PositionManagerState := ⟨rmA, [("AAPL", pos8n)], [pos8, pos8n]⟩

/-- pos8 after update_position with current price 55 and ATR 5: trailing
stop ratchets from 36 to max 36 (55 − 5×2) = 45, current price 55,
unrealized P&L (55 − 50) × 1200 = 6000. -/
def pos4 : Position :=
  { pos8 with
    stops := { stops8 with trailing_stop := 45 },
    current_price := some 55,
    unrealized_pl := some 6000 }

/-- Position manager state after that update. -/
def pm4 : PositionManagerState := ⟨rmA, [("AAPL", pos4)], [pos8]⟩

/-- When the symbol is active, update_position stores and returns the
refreshed position. -/
theorem update_position_eq (pm : PositionManagerState) (symbol : String)
    (p a : ℚ) (pos : Position) (hl : dlookup pm.positions symbol = some pos) :
    update_position pm symbol p a =
      some ({ pm with positions :=
                dinsert symbol (updated_position pm pos p a) pm.positions },
            updated_position pm pos p a) := by
  rw [update_position.eq_def, hl]

/-- C4: for every open position, each update_position call sets the
trailing stop to max(previous trailing stop, current_price − current_atr ×
stop_loss_atr_factor) — hence never below the previous one — and across
any sequence of updates the trailing stop is monotonically non-decreasing
for any prices. -/
theorem trailing_stop_ratchet :
    (∀ (pm : PositionManagerState) (symbol : String) (current_price current_atr : ℚ)
       (pos : Position) (pm' : PositionManagerState) (pos' : Position),
       dlookup pm.positions symbol = some pos →
       update_position pm symbol current_price current_atr = some (pm', pos') →
       pos'.stops.trailing_stop = max pos.stops.trailing_stop
         (current_price - current_atr * pm.risk_manager.risk_params.stop_loss_atr_factor) ∧
       pos.stops.trailing_stop ≤ pos'.stops.trailing_stop) ∧
    (∀ (l : List (ℚ × ℚ)) (pm : PositionManagerState) (symbol : String) (pos : Position),
       dlookup pm.positions symbol = some pos →
       ∃ pos', dlookup (run_updates pm symbol l).positions symbol = some pos' ∧
         pos.stops.trailing_stop ≤ pos'.stops.trailing_stop) := by
  constructor
  · intro pm symbol p a pos pm' pos' hl hu
    rw [update_position_eq pm symbol p a pos hl] at hu
    injection hu with hu'
    have hpos := congrArg Prod.snd hu'
    simp only at hpos
    subst hpos
    exact ⟨rfl, le_max_left _ _⟩
  · intro l
    induction l with
    | nil =>
      intro pm symbol pos hl
      exact ⟨pos, by simpa [run_updates] using hl, le_rfl⟩
    | cons head rest ih =>
      obtain ⟨p, a⟩ := head
      intro pm symbol pos hl
      rw [run_updates, update_position_eq pm symbol p a pos hl]
      obtain ⟨pos', h1, h2⟩ :=
        ih { pm with positions :=
               dinsert symbol (updated_position pm pos p a) pm.positions }
          symbol (updated_position pm pos p a) (dlookup_dinsert _ _ _)
      exact ⟨pos', h1, le_trans (le_max_left _ _) h2⟩

/-- Witness for C4: updating pm8's AAPL position at price 55, ATR 5
ratchets the trailing stop from 36 to 45 = max(36, 55 − 5×2.0). -/
theorem trailing_stop_ratchet_holds :
    dlookup pm8.positions "AAPL" = some pos8 ∧
    update_position pm8 "AAPL" 55 5 = some (pm4, pos4) ∧
    (pos4.stops.trailing_stop = max pos8.stops.trailing_stop
       (55 - 5 * pm8.risk_manager.risk_params.stop_loss_atr_factor) ∧
     pos8.stops.trailing_stop ≤ pos4.stops.trailing_stop) := by
  have h1 : dlookup pm8.positions "AAPL" = some pos8 := by
    simp [pm8, dlookup]
  have hmax : max (36 : ℚ) (55 - 5 * 2) = 45 := by
    rw [max_eq_right] <;> norm_num
  have h2 : update_position pm8 "AAPL" 55 5 = some (pm4, pos4) := by
    rw [update_position.eq_def, h1]
    norm_num [updated_position, pm8, pm4, pos8, pos4, stops8, psA, rmA,
      defaultRiskParams, dinsert, hmax]
  exact ⟨h1, h2, trailing_stop_ratchet.1 pm8 "AAPL" 55 5 pos8 pm4 pos4 h1 h2⟩

/-- C8 counterexample: open_position performs no duplicate check — with
"AAPL" already active in pm8, a second open does not reject with
PositionAlreadyOpen; it succeeds, silently overwrites the registry entry
(pos8 becomes pos8n) and appends a second record to the history. -/
theorem duplicate_open_counterexample :
    (dlookup pm8.positions "AAPL").isSome = true ∧
    open_position pm8 clamp_id type_full 0 "AAPL" sig8 regA = .ok (pm8n, pos8n) ∧
    open_position pm8 clamp_id type_full 0 "AAPL" sig8 regA ≠
      .error .positionAlreadyOpen ∧
    pm8n ≠ pm8 ∧
    pm8n.position_history.length = pm8.position_history.length + 1 := by
  have hopen : open_position pm8 clamp_id type_full 0 "AAPL" sig8 regA =
      .ok (pm8n, pos8n) := by
    rw [open_position.eq_def]
    rw [show calculate_position_size pm8.risk_manager clamp_id type_full "AAPL"
          sig8.price sig8.stop_loss sig8.strength regA = .ok psA from ?_]
    · norm_num [calculate_stop_levels, initial_stop_calc, dinsert,
        pm8, pm8n, pos8, pos8n, sig8, regA, rmA, psA, stops8, stops8n,
        defaultRiskParams]
      simp +decide
      all_goals norm_num
    · norm_num [calculate_position_size, risk_per_share_calc, pm8, rmA, regA, psA,
        sig8, final_units_calc, adjusted_units_calc, base_units_calc,
        risk_amount_calc, get_regime_adjustment, get_signal_adjustment,
        get_portfolio_adjustment, clamp_id, type_full, defaultRiskParams]
      simp +decide
  refine ⟨by simp [pm8, dlookup], hopen, ?_, ?_, by simp [pm8, pm8n]⟩
  · rw [hopen]
    simp
  · intro h
    have := congrArg (fun s => s.position_history.length) h
    simp [pm8, pm8n] at this

/-- C8 amended: open_position never rejects a duplicate — for every state
and symbol, a successful open leaves the registry with the new position
under that symbol (overwriting any previous active entry in place) and
appends the new position to the history; a fresh symbol is inserted the
same way. -/
theorem open_position_overwrites (pm : PositionManagerState)
    (verify_risk_limits : ℚ → ℚ → String → ℚ) (position_type_of : ℚ → String)
    (now : ℚ) (symbol : String) (signal : Signal) (regime : MarketRegime)
    (pm' : PositionManagerState) (pos : Position)
    (h : open_position pm verify_risk_limits position_type_of now symbol signal regime
         = .ok (pm', pos)) :
    dlookup pm'.positions symbol = some pos ∧
    pm'.position_history = pm.position_history ++ [pos] := by
  rw [open_position.eq_def] at h
  cases hc : calculate_position_size pm.risk_manager verify_risk_limits
      position_type_of symbol signal.price signal.stop_loss signal.strength regime with
  | error e =>
    rw [hc] at h
    exact Except.noConfusion h
  | ok psize =>
    rw [hc] at h
    injection h with h'
    have hfst := congrArg Prod.fst h'
    have hsnd := congrArg Prod.snd h'
    simp only at hfst hsnd
    subst hfst
    subst hsnd
    exact ⟨dlookup_dinsert _ _ _, rfl⟩

/-- Witness for the amended C8, at the duplicate open of pm8: afterwards
the registry maps AAPL to the new position and the history was extended
by exactly that record. -/
theorem open_position_overwrites_holds :
    dlookup pm8n.positions "AAPL" = some pos8n ∧
    pm8n.position_history = pm8.position_history ++ [pos8n] :=
  open_position_overwrites pm8 clamp_id type_full 0 "AAPL" sig8 regA pm8n pos8n
    (by rw [open_position.eq_def]
        rw [show calculate_position_size pm8.risk_manager clamp_id type_full "AAPL"
              sig8.price sig8.stop_loss sig8.strength regA = .ok psA from ?_]
        · norm_num [calculate_stop_levels, initial_stop_calc, dinsert,
            pm8, pm8n, pos8, pos8n, sig8, regA, rmA, psA, stops8, stops8n,
            defaultRiskParams]
          simp +decide
          all_goals norm_num
        · norm_num [calculate_position_size, risk_per_share_calc, pm8, rmA, regA, psA,
            sig8, final_units_calc, adjusted_units_calc, base_units_calc,
            risk_amount_calc, get_regime_adjustment, get_signal_adjustment,
            get_portfolio_adjustment, clamp_id, type_full, defaultRiskParams]
          simp +decide)

end TradingSystem
